import Mathlib

/-!
Verification of the EmissionTracker backend's authentication and
multi-tenancy core against its specification.

The embedding follows the Python source:
  * `src/app/auth/cognito.py` — JWKS fetching/caching and token verification
    (`_get_jwks`, `_get_public_key`, `verify_token`);
  * `src/app/dependencies.py` — the tenant-scoped database dependency
    (`get_tenant_db`) that sets the PostgreSQL session variable
    `app.current_company_id` via `SET LOCAL`;
  * `src/app/models/tenant.py` — the Company/User/Permission/Role/
    RolePermission/UserRole data model;
  * `src/app/routers/admin.py` — the superadmin-gated provisioning routes;
  * `src/scripts/seed_superadmin.py` — the bootstrap seeding procedure.

Machine-level details that the claims do not depend on (RSA arithmetic, JSON
wire format, UUID byte layout) are abstracted: signatures are modelled by a
concrete tag function over the serialized claims, identifiers by naturals.
Parts of the repository that are referenced but absent from the available
source (`app/database.py`'s `get_db`, `app.dependencies.require_superadmin`,
and a `hasPermission` query function) are modelled from the specification and
marked as such in their doc comments.
-/

namespace EmissionTracker

/-! ## Error model

FastAPI surfaces `HTTPException(status, detail)` as a handled HTTP response;
any other exception escapes the handlers in `cognito.py` and propagates as an
unhandled server error.  We model both outcomes. -/

/-- Outcome of a failing request path: either a handled `HTTPException`
carrying an HTTP status code and a detail string (the response body), or an
exception type that no `except` clause in the relevant code catches. -/
inductive AppError where
  | http (status : Nat) (detail : String)
  | uncaught (msg : String)
deriving DecidableEq, Repr

/-- True exactly for the handled `HTTPException` outcomes. -/
def AppError.isHandledHttp : AppError → Bool
  | .http _ _ => true
  | .uncaught _ => false

/-! ## Token and key-set model (`src/app/auth/cognito.py`) -/

/-- One entry of the JSON Web Key Set: a key identifier (`kid`) and the
public key material that `RSAAlgorithm.from_jwk` extracts from it. -/
structure Jwk where
  kid : String
  keyMaterial : String
deriving DecidableEq, Repr

/-- The JSON Web Key Set fetched from the Cognito well-known endpoint:
`{"keys": [...]}`. -/
structure Jwks where
  keys : List Jwk
deriving DecidableEq, Repr

/-- The decoded claim set of a JWT.  `sub` is optional because nothing in
`verify_token` requires its presence; `aud` is optional because the audience
claim is deliberately not verified; `extra` carries any further claims so
that "returned unchanged" is meaningful. -/
structure Claims where
  sub : Option String
  exp : Nat
  aud : Option String
  extra : List (String × String)
deriving DecidableEq, Repr

/-- A bearer token: the unverified header's key identifier, the payload
claim set, and the signature bytes. -/
structure Token where
  kid : String
  claims : Claims
  sig : String
deriving DecidableEq, Repr

/-- Serialization of a claim set as signed payload input. -/
def serializeClaims (c : Claims) : String :=
  toString c.sub ++ "|" ++ toString c.exp ++ "|" ++ toString c.aud
    ++ "|" ++ toString c.extra

/-- Model of an RS256 signature produced with the private counterpart of the
public key material `key` over the claim set `c`. -/
def rs256Sig (key : String) (c : Claims) : String :=
  "RS256(" ++ key ++ "," ++ serializeClaims c ++ ")"

/-- Failure modes of PyJWT's `jwt.decode` that this code path can hit:
`InvalidSignatureError` (a subclass of `InvalidTokenError`) and
`ExpiredSignatureError`. -/
inductive JwtError where
  | invalidSignature
  | expiredSignature
deriving DecidableEq, Repr

/-- The message `str(e)` of each PyJWT error as raised by the library. -/
def jwtErrStr : JwtError → String
  | .invalidSignature => "Signature verification failed"
  | .expiredSignature => "Signature has expired"

/-- Model of `jwt.decode(token, public_key, algorithms=["RS256"],
options={"verify_aud": False})`: the signature is verified first, then the
`exp` claim against the current time; the audience claim is never checked
(`verify_aud` is False), and no check requires a `sub` claim.  On success the
embedded payload is returned unchanged. -/
def jwtDecode (t : Token) (key : String) (now : Nat) : Except JwtError Claims :=
  if t.sig = rs256Sig key t.claims then
    if t.claims.exp ≤ now then .error .expiredSignature
    else .ok t.claims
  else .error .invalidSignature

/-- Result of one attempt to fetch and parse the JWKS URL
(`urllib.request.urlopen` + `json.loads`): either the parsed key set, or a
network/parse failure (DNS, timeout, malformed response). -/
inductive FetchResult where
  | ok (jwks : Jwks)
  | networkFailure
deriving DecidableEq, Repr

/-- The ambient environment of one verification attempt: what the network
fetch of the key set would return, and the current time used for the expiry
check. -/
structure Env where
  fetch : FetchResult
  now : Nat
deriving DecidableEq, Repr

/-- State of the `@lru_cache(maxsize=1)` on `_get_jwks`: empty, or holding
the one cached key set.  `lru_cache` memoizes the returned value forever and
does not cache raised exceptions. -/
abbrev JwksCache := Option Jwks

/-- Embedding of `_get_jwks` (cognito.py lines 15-18) together with its
`lru_cache` behaviour.  Returns the result, the cache afterwards, and the
number of network fetch attempts performed (0 on a cache hit, 1 otherwise).
A network failure propagates as an uncaught `URLError`/`JSONDecodeError`
(nothing in cognito.py catches it) and is not cached. -/
def getJwks (env : Env) (cache : JwksCache) :
    Except AppError Jwks × JwksCache × Nat :=
  match cache with
  | some j => (.ok j, some j, 0)
  | none =>
    match env.fetch with
    | .ok j => (.ok j, some j, 1)
    | .networkFailure =>
        (.error (.uncaught "URLError: JWKS fetch failed"), none, 1)

/-- Embedding of `_get_public_key` (cognito.py lines 21-27): read the
unverified header's `kid`, obtain the key set via `_get_jwks`, scan the
`keys` list for a matching `kid` and return its key material; raise
`HTTPException(401, "Public key not found")` when no entry matches.  The
cache and fetch count of `getJwks` are threaded through. -/
def getPublicKey (t : Token) (env : Env) (cache : JwksCache) :
    Except AppError String × JwksCache × Nat :=
  match getJwks env cache with
  | (.error e, c, n) => (.error e, c, n)
  | (.ok jwks, c, n) =>
    match jwks.keys.find? (fun k => k.kid == t.kid) with
    | some k => (.ok k.keyMaterial, c, n)
    | none => (.error (.http 401 "Public key not found"), c, n)

/-- Embedding of `verify_token` (cognito.py lines 30-46): resolve the public
key, then `jwt.decode`; `ExpiredSignatureError` is caught and mapped to
`HTTPException(401, "Token expired")`, any other `InvalidTokenError` to
`HTTPException(401, str(e))`.  An `HTTPException` raised inside
`_get_public_key` is not a PyJWT error and passes through unchanged, as does
an uncaught network failure from `_get_jwks`. -/
def verifyToken (t : Token) (env : Env) (cache : JwksCache) :
    Except AppError Claims × JwksCache × Nat :=
  match getPublicKey t env cache with
  | (.error e, c, n) => (.error e, c, n)
  | (.ok key, c, n) =>
    match jwtDecode t key env.now with
    | .ok payload => (.ok payload, c, n)
    | .error .expiredSignature => (.error (.http 401 "Token expired"), c, n)
    | .error e => (.error (.http 401 (jwtErrStr e)), c, n)

/-! ## Tenant data model (`src/app/models/tenant.py`) -/

/-- A row of the `companies` table (identifiers abstracted to naturals). -/
structure CompanyRow where
  id : Nat
  name : String
  slug : String
deriving DecidableEq, Repr

/-- A row of the `users` table.  `cognito_sub` is a NOT NULL, unique column;
`is_active` defaults to True and `is_superadmin` to False (tenant.py lines
46-47). -/
structure UserRow where
  id : Nat
  cognito_sub : String
  email : String
  is_active : Bool
  is_superadmin : Bool
  company_id : Nat
deriving DecidableEq, Repr

/-- A row of the global `permissions` catalogue; `name` is unique. -/
structure PermissionRow where
  id : Nat
  name : String
deriving DecidableEq, Repr

/-- A row of the `role_permissions` join table; composite primary key
`(role_id, permission_id)`. -/
structure RolePermissionRow where
  role_id : Nat
  permission_id : Nat
deriving DecidableEq, Repr

/-- A row of the `user_roles` table: composite primary key
`(user_id, role_id)`, plus the tenant column `company_id` from
`TenantMixin`. -/
structure UserRoleRow where
  user_id : Nat
  role_id : Nat
  company_id : Nat
deriving DecidableEq, Repr

/-! ## Tenant-scoped database dependency (`src/app/dependencies.py`) -/

/-- Database operations a request issues on its connection, as far as the
claims are concerned.  `query tenantScoped` marks whether the statement
touches a tenant table governed by a row-level-security policy;
`setLocalCompanyId` is `SET LOCAL app.current_company_id = <cid>`;
`insertUser` records a row insertion into `users`. -/
inductive DbOp where
  | query (tenantScoped : Bool)
  | setLocalCompanyId (cid : Nat)
  | insertUser (u : UserRow)
  | commit
  | rollback
deriving DecidableEq, Repr

/-- Observable state of one pooled connection: the value of the
`app.current_company_id` session variable, and whether a transaction is
open. -/
structure ConnState where
  marker : Option Nat
  inTxn : Bool
deriving DecidableEq, Repr

/-- Modelled from the spec: the relational store's transaction-scoped session
variables (PostgreSQL `SET LOCAL`, §6 "transaction-scoped session variables
or equivalent ephemeral context").  Setting assigns the marker for the
current transaction only; `commit` and `rollback` end the transaction and
clear the marker, so a connection returned to the pool carries no marker. -/
def stepConn : ConnState → DbOp → ConnState
  | s, .query _ => s
  | s, .setLocalCompanyId cid => { s with marker := some cid }
  | s, .insertUser _ => s
  | _, .commit => { marker := none, inTxn := false }
  | _, .rollback => { marker := none, inTxn := false }

/-- True exactly for the `SET LOCAL app.current_company_id` operation. -/
def DbOp.setsMarker : DbOp → Bool
  | .setLocalCompanyId _ => true
  | _ => false

/-- True exactly for an insertion into the `users` table. -/
def DbOp.insertsUser : DbOp → Bool
  | .insertUser _ => true
  | _ => false

/-- Embedding of the user lookup in `get_tenant_db` (dependencies.py line
30): `select(User).where(User.cognito_sub == cognito_sub)` with
`scalar_one_or_none`.  When the claim set carries no `"sub"`,
`current_user.get("sub")` is `None` and the SQL comparison
`cognito_sub = NULL` matches no row (the column is NOT NULL). -/
def findUserBySub (users : List UserRow) (sub : Option String) : Option UserRow :=
  match sub with
  | none => none
  | some s => users.find? (fun u => u.cognito_sub == s)

/-- Embedding of `get_tenant_db` (dependencies.py lines 15-46) together with
the transaction demarcation around it.  Modelled from the spec where the
source is absent: `app/database.py`'s `get_db` (imported at dependencies.py
line 11 but not in the available source) opens one transaction per request,
commits it when the request finishes and rolls it back on an exception
(§5: "if a request is cancelled/times out mid-pipeline, any open transaction
must roll back").

The function returns the request outcome and the ordered list of operations
executed on the connection: the provisioning lookup (not tenant-scoped — it
runs before any marker is set), then `SET LOCAL app.current_company_id`,
then the handler's queries (`body` lists their tenant-scoped flags), then
`commit`; on an unprovisioned subject, `HTTPException(401)` and a
rollback. -/
def handleRequest (users : List UserRow) (sub : Option String)
    (body : List Bool) : Except AppError Unit × List DbOp :=
  match findUserBySub users sub with
  | none =>
      (.error (.http 401 "User not provisioned. Contact your administrator."),
       [.query false, .rollback])
  | some u =>
      (.ok (),
       .query false :: .setLocalCompanyId u.company_id ::
         (body.map DbOp.query ++ [.commit]))

/-! ## Superadmin gate and admin provisioning (`src/app/routers/admin.py`) -/

/-- Embedding of the principal-resolution step: look the verified subject up
in `users` and fail with the `HTTPException(401, "User not provisioned.
Contact your administrator.")` of dependencies.py lines 33-37 when no row
matches. -/
def resolvePrincipal (users : List UserRow) (c : Claims) :
    Except AppError UserRow :=
  match findUserBySub users c.sub with
  | none =>
      .error (.http 401 "User not provisioned. Contact your administrator.")
  | some u => .ok u

/-- Modelled from the spec: `require_superadmin` is imported by the admin
router from `app.dependencies` (admin.py line 18) but absent from the
available source.  Per §4.6, `requireSuperadmin(user)` returns unit when the
resolved User's superadmin flag is set and fails with `Forbidden`
(HTTP 403) when it is false. -/
def requireSuperadmin (u : UserRow) : Except AppError Unit :=
  if u.is_superadmin then .ok () else .error (.http 403 "Forbidden")

/-- The admin-route dependency chain (admin.py lines 27-31): token
verification, then principal resolution, then the superadmin gate — the gate
runs strictly after resolution, so a failure of either earlier stage is
returned as-is and the flag is never consulted. -/
def adminGate (t : Token) (env : Env) (cache : JwksCache)
    (users : List UserRow) : Except AppError UserRow :=
  match (verifyToken t env cache).1 with
  | .error e => .error e
  | .ok claims =>
    match resolvePrincipal users claims with
    | .error e => .error e
    | .ok u =>
      match requireSuperadmin u with
      | .error e => .error e
      | .ok _ => .ok u

/-- Result of the `cognito.admin_get_user` call in `provision_user`
(admin.py lines 93-105): the sub exists in the user pool, it does not
(`UserNotFoundException` → 404), or some other `ClientError` which the code
re-raises. -/
inductive CognitoLookup where
  | found
  | userNotFound
  | otherError
deriving DecidableEq, Repr

/-- Embedding of `provision_user` (admin.py lines 72-126): 404 if the
company does not exist, 404 if the sub is unknown to Cognito, re-raise on any
other Cognito error, 409 if the sub is already provisioned; otherwise insert
`User(id=uuid4(), cognito_sub=..., email=..., company_id=...)` — the
`is_active`/`is_superadmin` columns are not passed, so their model defaults
True/False (tenant.py lines 46-47) apply — and commit.  Returns the outcome
and the operations executed. -/
def provisionUser (companies : List CompanyRow) (users : List UserRow)
    (company_id : Nat) (cognito_sub : String) (email : String)
    (cognito : CognitoLookup) (newId : Nat) :
    Except AppError UserRow × List DbOp :=
  match companies.find? (fun c => c.id == company_id) with
  | none =>
      (.error (.http 404 ("Company " ++ toString company_id ++ " not found.")),
       [.query false, .rollback])
  | some _ =>
    match cognito with
    | .userNotFound =>
        (.error (.http 404 ("Cognito user '" ++ cognito_sub
            ++ "' not found in user pool.")),
         [.query false, .rollback])
    | .otherError =>
        (.error (.uncaught "botocore ClientError"), [.query false, .rollback])
    | .found =>
      match users.find? (fun u => u.cognito_sub == cognito_sub) with
      | some _ =>
          (.error (.http 409 ("User with cognito_sub '" ++ cognito_sub
              ++ "' is already provisioned.")),
           [.query false, .query false, .rollback])
      | none =>
        let u : UserRow :=
          { id := newId, cognito_sub := cognito_sub, email := email,
            is_active := true, is_superadmin := false,
            company_id := company_id }
        (.ok u, [.query false, .query false, .insertUser u, .commit])

/-- Embedding of the new-user branch of `seed` (seed_superadmin.py lines
63-69): the bootstrap script constructs the one kind of User row with
`is_superadmin=True`, anchored to the platform company. -/
def seedSuperadmin (platformCompanyId : Nat) (newId : Nat)
    (cognito_sub : String) (email : String) : UserRow :=
  { id := newId, cognito_sub := cognito_sub, email := email,
    is_active := true, is_superadmin := true,
    company_id := platformCompanyId }

/-! ## Permission model -/

/-- The three relations `hasPermission` reads, as table states. -/
structure RbacState where
  permissions : List PermissionRow
  rolePermissions : List RolePermissionRow
  userRoles : List UserRoleRow
deriving DecidableEq, Repr

/-- Modelled from the spec: `hasPermission(userId, companyId,
permissionName)` (§4.5) — the repository defines the joined tables in
`models/tenant.py` but no query function appears in the available source.
Computed as: does there exist a UserRole for this user within this company,
joined to a RolePermission on the role, joined to a Permission whose name
matches. -/
def hasPermission (s : RbacState) (userId companyId : Nat)
    (permissionName : String) : Bool :=
  s.userRoles.any fun ur =>
    ur.user_id == userId && ur.company_id == companyId &&
      s.rolePermissions.any fun rp =>
        rp.role_id == ur.role_id &&
          s.permissions.any fun p =>
            p.id == rp.permission_id && p.name == permissionName

/-- Granting: insert the RolePermission `(roleId, permissionId)` and the
UserRole `(userId, roleId, companyId)` rows. -/
def grant (s : RbacState) (userId roleId companyId permissionId : Nat) :
    RbacState :=
  { s with
    rolePermissions :=
      ⟨roleId, permissionId⟩ :: s.rolePermissions,
    userRoles := ⟨userId, roleId, companyId⟩ :: s.userRoles }

/-- Revoking a UserRole: delete the row (all copies, as the composite
primary key admits at most one). -/
def revokeUserRole (s : RbacState) (userId roleId companyId : Nat) :
    RbacState :=
  { s with
    userRoles :=
      s.userRoles.filter (fun ur => ur ≠ ⟨userId, roleId, companyId⟩) }

/-- Revoking a RolePermission: delete the row. -/
def revokeRolePermission (s : RbacState) (roleId permissionId : Nat) :
    RbacState :=
  { s with
    rolePermissions :=
      s.rolePermissions.filter (fun rp => rp ≠ ⟨roleId, permissionId⟩) }

/-! ## Concrete fixtures used by witnesses and counterexamples -/

/-- A signing key present in the provider's key set. -/
def keyA : Jwk := ⟨"kidA", "KEYA"⟩

/-- A one-key key set containing `keyA`. -/
def jwks1 : Jwks := ⟨[keyA]⟩

/-- A claim set with a subject, expiry 100, no audience. -/
def claims1 : Claims := ⟨some "sub-123", 100, none, []⟩

/-- A claim set with no subject claim at all. -/
def claimsNoSub : Claims := ⟨none, 100, none, []⟩

/-- A token correctly signed by `keyA` over `claims1`. -/
def tok1 : Token := ⟨"kidA", claims1, rs256Sig "KEYA" claims1⟩

/-- A token correctly signed by `keyA` over `claimsNoSub`. -/
def tokNoSub : Token := ⟨"kidA", claimsNoSub, rs256Sig "KEYA" claimsNoSub⟩

/-- A claim set whose subject is the seeded superadmin's. -/
def claimsRoot : Claims := ⟨some "sub-root", 100, none, []⟩

/-- A token correctly signed by `keyA` over `claimsRoot`. -/
def tokRoot : Token := ⟨"kidA", claimsRoot, rs256Sig "KEYA" claimsRoot⟩

/-- A token whose header names a key identifier absent from `jwks1`. -/
def tokMiss : Token := ⟨"kidZ", claims1, "junk"⟩

/-- A token naming the known key but carrying an invalid signature. -/
def tokBad : Token := ⟨"kidA", claims1, "junk"⟩

/-- An environment whose fetch succeeds, at time 50 (before expiry 100). -/
def env1 : Env := ⟨.ok jwks1, 50⟩

/-- An environment whose key-set fetch fails on the network. -/
def envFail : Env := ⟨.networkFailure, 50⟩

/-- A provisioned (non-superadmin) user of company 7. -/
def alice : UserRow :=
  ⟨1, "sub-123", "alice@acme.test", true, false, 7⟩

/-- A provisioned superadmin user anchored to the platform company 0. -/
def root0 : UserRow :=
  ⟨2, "sub-root", "root@platform.test", true, true, 0⟩

/-- An RBAC state with one catalogued permission and no role rows. -/
def rbac0 : RbacState := ⟨[⟨10, "emissions:write"⟩], [], []⟩

/-! ## C8 — valid tokens round-trip -/

/-- Shared helper: a token with a valid signature by a key found in the
available key set and an unexpired expiry claim verifies to its embedded
claim set. -/
lemma verifyToken_ok_of_valid
    (t : Token) (env : Env) (cache : JwksCache) (jwks : Jwks) (k : Jwk)
    (hcache : cache = some jwks ∨ (cache = none ∧ env.fetch = .ok jwks))
    (hfind : jwks.keys.find? (fun key => key.kid == t.kid) = some k)
    (hsig : t.sig = rs256Sig k.keyMaterial t.claims)
    (hexp : env.now < t.claims.exp) :
    (verifyToken t env cache).1 = .ok t.claims := by
  have hdec : jwtDecode t k.keyMaterial env.now = .ok t.claims := by
    rw [jwtDecode, if_pos hsig, if_neg (Nat.not_le.mpr hexp)]
  rcases hcache with h | ⟨h1, h2⟩
  · subst h
    simp [verifyToken, getPublicKey, getJwks, hfind, hdec]
  · subst h1
    simp [verifyToken, getPublicKey, getJwks, hfind, h2, hdec]

/-- C8: for every well-formed token carrying a valid signature by a key found
in the available key set (cached, or fetched on a cold cache) and an
unexpired expiry claim, `verify_token` returns the embedded claim set
unchanged.  The audience claim (`t.claims.aud`, any value or absent) and the
subject claim are unconstrained by the hypotheses, so the result holds
regardless of them: the audience is deliberately not verified. -/
theorem verifyToken_valid_returns_claims_unchanged
    (t : Token) (env : Env) (cache : JwksCache) (jwks : Jwks) (k : Jwk)
    (hcache : cache = some jwks ∨ (cache = none ∧ env.fetch = .ok jwks))
    (hfind : jwks.keys.find? (fun key => key.kid == t.kid) = some k)
    (hsig : t.sig = rs256Sig k.keyMaterial t.claims)
    (hexp : env.now < t.claims.exp) :
    (verifyToken t env cache).1 = .ok t.claims :=
  verifyToken_ok_of_valid t env cache jwks k hcache hfind hsig hexp

/-- C8 witness: the concrete valid token `tok1` verifies to its own claim
set, both from a warm cache and from a cold cache with a successful fetch. -/
theorem verifyToken_valid_returns_claims_unchanged_witness :
    (verifyToken tok1 env1 (some jwks1)).1 = .ok claims1 ∧
      (verifyToken tok1 env1 none).1 = .ok claims1 :=
  ⟨verifyToken_valid_returns_claims_unchanged tok1 env1 (some jwks1) jwks1
      keyA (Or.inl rfl) rfl rfl (by decide),
   verifyToken_valid_returns_claims_unchanged tok1 env1 none jwks1
      keyA (Or.inr ⟨rfl, rfl⟩) rfl rfl (by decide)⟩

/-! ## C4 — unknown key identifier: failure yes, refresh no

`_get_jwks` is memoized with `lru_cache(maxsize=1)`: once a key set has been
fetched it is returned forever, and a `kid` miss in `_get_public_key` raises
the 401 immediately without invalidating the cache, so no re-fetch is ever
attempted. -/

/-- C4 counterexample: with a warm cache (`some jwks1`) and a token naming
the unknown identifier `kidZ`, verification fails with the key-not-found 401
after zero fetch attempts — not the "exactly one refresh" the claim
states. -/
theorem verifyToken_unknownKid_no_refresh_counterexample :
    (verifyToken tokMiss env1 (some jwks1)).1 =
        .error (.http 401 "Public key not found") ∧
      (verifyToken tokMiss env1 (some jwks1)).2.2 = 0 ∧
      (verifyToken tokMiss env1 (some jwks1)).2.2 ≠ 1 := by
  refine ⟨rfl, rfl, ?_⟩
  decide

/-- C4 amended: for every token whose header names a key identifier absent
from the key set, verification fails with the key-not-found 401, but no
re-fetch is attempted: with a cached set the failure surfaces after zero
fetches and the cache is left unchanged; with a cold cache only the single
initial fetch occurs.  Either way the unknown identifier deterministically
yields the failure rather than hanging or looping. -/
theorem verifyToken_unknownKid_fails_without_refresh
    (t : Token) (env : Env) (jwks : Jwks)
    (hmiss : jwks.keys.find? (fun key => key.kid == t.kid) = none) :
    verifyToken t env (some jwks) =
        (.error (.http 401 "Public key not found"), some jwks, 0) ∧
      (env.fetch = .ok jwks →
        verifyToken t env none =
          (.error (.http 401 "Public key not found"), some jwks, 1)) := by
  constructor
  · simp [verifyToken, getPublicKey, getJwks, hmiss]
  · intro hfetch
    simp [verifyToken, getPublicKey, getJwks, hfetch, hmiss]

/-- C4 witness: the amended statement evaluated on `tokMiss` against
`jwks1` — zero fetches from the warm cache, one from the cold cache. -/
theorem verifyToken_unknownKid_fails_without_refresh_witness :
    verifyToken tokMiss env1 (some jwks1) =
        (.error (.http 401 "Public key not found"), some jwks1, 0) ∧
      verifyToken tokMiss env1 none =
        (.error (.http 401 "Public key not found"), some jwks1, 1) :=
  ⟨(verifyToken_unknownKid_fails_without_refresh tokMiss env1 jwks1 rfl).1,
   (verifyToken_unknownKid_fails_without_refresh tokMiss env1 jwks1 rfl).2 rfl⟩

/-! ## C5 — network failure of the key-set fetch

`verify_token` catches only `jwt.ExpiredSignatureError` and
`jwt.InvalidTokenError`; the `URLError`/`JSONDecodeError` raised inside
`_get_jwks` when the fetch fails matches neither clause and escapes as an
unhandled exception. -/

/-- C5 counterexample: with an empty cache and a failing fetch, the
verification attempt ends in the uncaught network exception — an error that
is not a handled HTTP error, contradicting the claim that the failure is
surfaced as a reported `KeySetUnavailable`-style handled error. -/
theorem verifyToken_fetchFailure_unhandled_counterexample :
    (verifyToken tok1 envFail none).1 =
        .error (.uncaught "URLError: JWKS fetch failed") ∧
      AppError.isHandledHttp (.uncaught "URLError: JWKS fetch failed") = false ∧
      ∀ st d, (verifyToken tok1 envFail none).1 ≠ .error (.http st d) := by
  refine ⟨rfl, rfl, fun st d hc => ?_⟩
  rw [show (verifyToken tok1 envFail none).1 =
      .error (.uncaught "URLError: JWKS fetch failed") from rfl] at hc
  cases hc

/-- C5 amended: for every verification attempt during which the key set must
be fetched and the network fetch fails, the attempt fails — it never
proceeds to return a claim set unauthenticated — but the failure propagates
as an unhandled exception rather than as a handled
`KeySetUnavailable`/`UpstreamUnavailable` error response. -/
theorem verifyToken_fetchFailure_fails_closed_but_unhandled
    (t : Token) (env : Env) (hfetch : env.fetch = .networkFailure) :
    (verifyToken t env none).1 =
        .error (.uncaught "URLError: JWKS fetch failed") ∧
      (∀ c : Claims, (verifyToken t env none).1 ≠ .ok c) ∧
      ∀ e : AppError, (verifyToken t env none).1 = .error e →
        e.isHandledHttp = false := by
  have h : (verifyToken t env none).1 =
      .error (.uncaught "URLError: JWKS fetch failed") := by
    simp [verifyToken, getPublicKey, getJwks, hfetch]
  refine ⟨h, fun c hc => by simp [h] at hc, fun e he => ?_⟩
  rw [h] at he
  cases he
  rfl

/-- C5 witness: the amended statement evaluated at the failing-fetch
environment on the concrete token `tok1`. -/
theorem verifyToken_fetchFailure_fails_closed_but_unhandled_witness :
    (verifyToken tok1 envFail none).1 =
        .error (.uncaught "URLError: JWKS fetch failed") ∧
      (∀ c : Claims, (verifyToken tok1 envFail none).1 ≠ .ok c) ∧
      ∀ e : AppError, (verifyToken tok1 envFail none).1 = .error e →
        e.isHandledHttp = false :=
  verifyToken_fetchFailure_fails_closed_but_unhandled tok1 envFail rfl

/-! ## C6 — key-not-found vs invalid-signature are distinguishable

Both failures surface as HTTP 401, but `_get_public_key` answers
`"Public key not found"` while the `InvalidTokenError` clause of
`verify_token` returns `str(e)`, which for an invalid signature is
`"Signature verification failed"`: the response bodies differ. -/

/-- C6 counterexample: the concrete token `tokMiss` (unknown key identifier)
and `tokBad` (known key, invalid signature) both fail with status 401, yet
the response bodies differ, so a caller can tell the two failures apart —
contradicting the indistinguishability claim. -/
theorem verifyToken_failure_bodies_differ_counterexample :
    (verifyToken tokMiss env1 (some jwks1)).1 =
        .error (.http 401 "Public key not found") ∧
      (verifyToken tokBad env1 (some jwks1)).1 =
        .error (.http 401 "Signature verification failed") ∧
      ("Public key not found" : String) ≠ "Signature verification failed" := by
  refine ⟨rfl, ?_, by decide⟩
  have hsig : tokBad.sig ≠ rs256Sig keyA.keyMaterial tokBad.claims := by decide
  simp [verifyToken, getPublicKey, getJwks, jwtDecode, jwtErrStr, env1, hsig,
    show jwks1.keys.find? (fun key => key.kid == tokBad.kid) = some keyA from rfl]

/-- C6 amended: both failures carry the same 401 status category, but the
response bodies differ — an unknown key identifier yields the body
`"Public key not found"` while an invalid signature yields
`"Signature verification failed"` — so the body does let the caller
distinguish the two failures. -/
theorem verifyToken_failures_same_status_different_body
    (t t' : Token) (env : Env) (jwks : Jwks) (k : Jwk)
    (hmiss : jwks.keys.find? (fun key => key.kid == t.kid) = none)
    (hfind : jwks.keys.find? (fun key => key.kid == t'.kid) = some k)
    (hsig : t'.sig ≠ rs256Sig k.keyMaterial t'.claims) :
    (verifyToken t env (some jwks)).1 =
        .error (.http 401 "Public key not found") ∧
      (verifyToken t' env (some jwks)).1 =
        .error (.http 401 "Signature verification failed") ∧
      ("Public key not found" : String) ≠ "Signature verification failed" := by
  refine ⟨?_, ?_, by decide⟩
  · simp [verifyToken, getPublicKey, getJwks, hmiss]
  · simp [verifyToken, getPublicKey, getJwks, hfind, jwtDecode, jwtErrStr, hsig]

/-- C6 amended witness: the amended statement evaluated on the concrete pair
`tokMiss`/`tokBad` against the cached key set `jwks1`. -/
theorem verifyToken_failures_same_status_different_body_witness :
    (verifyToken tokMiss env1 (some jwks1)).1 =
        .error (.http 401 "Public key not found") ∧
      (verifyToken tokBad env1 (some jwks1)).1 =
        .error (.http 401 "Signature verification failed") ∧
      ("Public key not found" : String) ≠ "Signature verification failed" :=
  verifyToken_failures_same_status_different_body tokMiss tokBad env1 jwks1
    keyA rfl rfl (by decide)

/-! ## C1 — the tenant marker is transaction-scoped -/

/-- Shared helper: any operation sequence ending in `commit` leaves the
connection without a marker, whatever state it started in. -/
lemma foldl_stepConn_commit (s : ConnState) (l : List DbOp) :
    (List.foldl stepConn s (l ++ [DbOp.commit])).marker = none := by
  simp [List.foldl_append, stepConn]

/-- Shared helper: in the successful `get_tenant_db` trace, every
tenant-scoped query is preceded by the `SET LOCAL` of the user's company. -/
lemma trace_setLocal_before_tenant_queries (cid : Nat) (body : List Bool)
    (tr : List DbOp)
    (htr : tr = DbOp.query false :: DbOp.setLocalCompanyId cid ::
        (body.map DbOp.query ++ [DbOp.commit])) :
    ∀ i, ∀ hi : i < tr.length, tr.get ⟨i, hi⟩ = DbOp.query true →
      ∃ j, ∃ hj : j < tr.length, j < i ∧
        tr.get ⟨j, hj⟩ = DbOp.setLocalCompanyId cid := by
  subst htr
  intro i hi hq
  cases i with
  | zero => simp [List.get] at hq
  | succ i =>
    cases i with
    | zero => simp [List.get] at hq
    | succ n =>
      refine ⟨1, by simp, by omega, rfl⟩

/-- C1: for every request served through `get_tenant_db`, (a) after the
request's transaction ends — `commit` on success, `rollback` on the 401
path — the underlying connection carries no tenant marker, from any starting
connection state, so a pooled connection never hands a previous tenant's
marker to its next user; and (b) in a successful request the
`SET LOCAL app.current_company_id` of the authenticated user's company
precedes every tenant-scoped query of the transaction. -/
theorem getTenantDb_marker_transaction_scoped
    (users : List UserRow) (sub : Option String) (body : List Bool) :
    (∀ s₀ : ConnState,
      (List.foldl stepConn s₀ (handleRequest users sub body).2).marker = none) ∧
    ∀ u, findUserBySub users sub = some u →
      (handleRequest users sub body).1 = .ok () ∧
      ∀ i, ∀ hi : i < (handleRequest users sub body).2.length,
        (handleRequest users sub body).2.get ⟨i, hi⟩ = DbOp.query true →
        ∃ j, ∃ hj : j < (handleRequest users sub body).2.length, j < i ∧
          (handleRequest users sub body).2.get ⟨j, hj⟩ =
            DbOp.setLocalCompanyId u.company_id := by
  constructor
  · intro s₀
    rcases hcase : findUserBySub users sub with _ | u
    · simp [handleRequest, hcase, stepConn]
    · have htr : (handleRequest users sub body).2 =
          (DbOp.query false :: DbOp.setLocalCompanyId u.company_id ::
            body.map DbOp.query) ++ [DbOp.commit] := by
        simp [handleRequest, hcase]
      rw [htr]
      exact foldl_stepConn_commit s₀ _
  · intro u hu
    refine ⟨by simp [handleRequest, hu], ?_⟩
    exact trace_setLocal_before_tenant_queries u.company_id body _
      (by simp [handleRequest, hu])

/-- C1 witness: a dirty pooled connection (stale marker 99) is clean after
the concrete request of `alice`, and the tenant-scoped query at index 2 of
that request's trace is preceded by the `SET LOCAL` of company 7 at
index 1. -/
theorem getTenantDb_marker_transaction_scoped_witness :
    (List.foldl stepConn ⟨some 99, true⟩
        (handleRequest [alice] (some "sub-123") [true]).2).marker = none ∧
      ∃ j, ∃ hj : j < (handleRequest [alice] (some "sub-123") [true]).2.length,
        j < 2 ∧ (handleRequest [alice] (some "sub-123") [true]).2.get ⟨j, hj⟩ =
          DbOp.setLocalCompanyId 7 :=
  ⟨(getTenantDb_marker_transaction_scoped [alice] (some "sub-123") [true]).1
      ⟨some 99, true⟩,
   ((getTenantDb_marker_transaction_scoped [alice] (some "sub-123") [true]).2
      alice rfl).2 2 (by decide) rfl⟩

/-! ## C3 — unprovisioned subjects are rejected, nothing is activated -/

/-- C3: for every verified subject that matches no User row's `cognito_sub`,
`get_tenant_db` raises the 401 `HTTPException`, the transaction performs no
`SET LOCAL` (the tenant marker is never set) and inserts no User row. -/
theorem getTenantDb_unknown_subject_rejected
    (users : List UserRow) (s : String) (body : List Bool)
    (habs : ∀ u ∈ users, u.cognito_sub ≠ s) :
    handleRequest users (some s) body =
        (.error (.http 401 "User not provisioned. Contact your administrator."),
         [DbOp.query false, DbOp.rollback]) ∧
      ∀ op ∈ (handleRequest users (some s) body).2,
        DbOp.setsMarker op = false ∧ DbOp.insertsUser op = false := by
  have hnone : findUserBySub users (some s) = none := by
    simp only [findUserBySub, List.find?_eq_none, beq_iff_eq]
    exact habs
  refine ⟨by simp [handleRequest, hnone], ?_⟩
  intro op hop
  simp only [handleRequest, hnone, List.mem_cons, List.not_mem_nil,
    or_false] at hop
  rcases hop with h | h <;> subst h <;> exact ⟨rfl, rfl⟩

/-- C3 witness: the concrete subject `sub-zzz`, unknown among `[alice]`,
yields the 401 and the markerless, insert-free trace. -/
theorem getTenantDb_unknown_subject_rejected_witness :
    handleRequest [alice] (some "sub-zzz") [true] =
        (.error (.http 401 "User not provisioned. Contact your administrator."),
         [DbOp.query false, DbOp.rollback]) ∧
      ∀ op ∈ (handleRequest [alice] (some "sub-zzz") [true]).2,
        DbOp.setsMarker op = false ∧ DbOp.insertsUser op = false :=
  getTenantDb_unknown_subject_rejected [alice] "sub-zzz" [true] (by decide)

/-! ## C9 — claim sets without a subject are handled safely -/

/-- C9: `verify_token` performs no check on the subject claim, so a valid
token whose claim set lacks `"sub"` verifies successfully; in
`get_tenant_db`, `current_user.get("sub")` is then `None`, the SQL
comparison `cognito_sub = NULL` matches no row of the NOT NULL column, and
the request fails with the 401 `HTTPException` — no crash, and no
`SET LOCAL` is ever executed in that transaction. -/
theorem getTenantDb_missing_sub_safe
    (users : List UserRow) (body : List Bool)
    (t : Token) (env : Env) (cache : JwksCache) (jwks : Jwks) (k : Jwk)
    (hcache : cache = some jwks ∨ (cache = none ∧ env.fetch = .ok jwks))
    (hfind : jwks.keys.find? (fun key => key.kid == t.kid) = some k)
    (hsig : t.sig = rs256Sig k.keyMaterial t.claims)
    (hexp : env.now < t.claims.exp)
    (hnosub : t.claims.sub = none) :
    (verifyToken t env cache).1 = .ok t.claims ∧
      findUserBySub users t.claims.sub = none ∧
      handleRequest users t.claims.sub body =
        (.error (.http 401 "User not provisioned. Contact your administrator."),
         [DbOp.query false, DbOp.rollback]) ∧
      ∀ op ∈ (handleRequest users t.claims.sub body).2,
        DbOp.setsMarker op = false := by
  have hv := verifyToken_ok_of_valid t env cache jwks k hcache hfind hsig hexp
  have hnone : findUserBySub users t.claims.sub = none := by
    rw [hnosub]
    rfl
  refine ⟨hv, hnone, by simp [handleRequest, hnone], ?_⟩
  intro op hop
  simp only [handleRequest, hnone, List.mem_cons, List.not_mem_nil,
    or_false] at hop
  rcases hop with h | h <;> subst h <;> rfl

/-- C9 witness: the concrete token `tokNoSub` (no subject claim) verifies to
its claim set, and the resulting request against `[alice]` fails 401 with a
markerless trace. -/
theorem getTenantDb_missing_sub_safe_witness :
    (verifyToken tokNoSub env1 (some jwks1)).1 = .ok tokNoSub.claims ∧
      findUserBySub [alice] tokNoSub.claims.sub = none ∧
      handleRequest [alice] tokNoSub.claims.sub [true] =
        (.error (.http 401 "User not provisioned. Contact your administrator."),
         [DbOp.query false, DbOp.rollback]) ∧
      ∀ op ∈ (handleRequest [alice] tokNoSub.claims.sub [true]).2,
        DbOp.setsMarker op = false :=
  getTenantDb_missing_sub_safe [alice] [true] tokNoSub env1 (some jwks1)
    jwks1 keyA (Or.inl rfl) rfl rfl (by decide) rfl

/-! ## C2 — the superadmin gate -/

/-- Shared helper: every failure of `verify_token` is an uncaught exception
or an HTTP 401 — never a 403, so a caller rejected before the gate cannot
observe the Forbidden outcome. -/
lemma verifyToken_error_not_403
    (t : Token) (env : Env) (cache : JwksCache) (e : AppError)
    (h : (verifyToken t env cache).1 = .error e) :
    ∀ d, e ≠ AppError.http 403 d := by
  intro d hd
  subst hd
  rcases cache with _ | jwks
  · rcases hfetch : env.fetch with jw | _
    · rcases hfind : jw.keys.find? (fun key => key.kid == t.kid) with _ | k
      · simp [verifyToken, getPublicKey, getJwks, hfetch, hfind] at h
      · rcases hdec : jwtDecode t k.keyMaterial env.now with err | c
        · cases err <;>
            simp [verifyToken, getPublicKey, getJwks, hfetch, hfind, hdec,
              jwtErrStr] at h
        · simp [verifyToken, getPublicKey, getJwks, hfetch, hfind, hdec] at h
    · simp [verifyToken, getPublicKey, getJwks, hfetch] at h
  · rcases hfind : jwks.keys.find? (fun key => key.kid == t.kid) with _ | k
    · simp [verifyToken, getPublicKey, getJwks, hfind] at h
    · rcases hdec : jwtDecode t k.keyMaterial env.now with err | c
      · cases err <;>
          simp [verifyToken, getPublicKey, getJwks, hfind, hdec,
            jwtErrStr] at h
      · simp [verifyToken, getPublicKey, getJwks, hfind, hdec] at h

/-- C2: the admin gate admits exactly the callers whose token verifies and
whose resolved User carries `is_superadmin = true`; a resolved User with the
flag false is rejected with Forbidden 403; a caller whose token fails
verification receives that verification error unchanged — which is never a
403, so an unauthenticated caller never reaches the flag check — and a
verified but unprovisioned subject receives the 401, never reaching an
admin handler. -/
theorem adminGate_superadmin_only
    (t : Token) (env : Env) (cache : JwksCache) (users : List UserRow) :
    (∀ claims u, (verifyToken t env cache).1 = .ok claims →
        findUserBySub users claims.sub = some u →
        (u.is_superadmin = true → adminGate t env cache users = .ok u) ∧
        (u.is_superadmin = false →
          adminGate t env cache users = .error (.http 403 "Forbidden"))) ∧
    (∀ e, (verifyToken t env cache).1 = .error e →
        adminGate t env cache users = .error e ∧
        ∀ d, e ≠ AppError.http 403 d) ∧
    (∀ claims, (verifyToken t env cache).1 = .ok claims →
        findUserBySub users claims.sub = none →
        adminGate t env cache users =
          .error (.http 401 "User not provisioned. Contact your administrator.")) := by
  refine ⟨fun claims u hv hu => ⟨fun hflag => ?_, fun hflag => ?_⟩,
    fun e he => ⟨?_, verifyToken_error_not_403 t env cache e he⟩,
    fun claims hv hn => ?_⟩
  · simp [adminGate, hv, resolvePrincipal, hu, requireSuperadmin, hflag]
  · simp [adminGate, hv, resolvePrincipal, hu, requireSuperadmin, hflag]
  · simp [adminGate, he]
  · simp [adminGate, hv, resolvePrincipal, hn]

/-- C2 witness: the superadmin `root0` passes the gate with their valid
token; `alice` (flag false) gets the 403; the unknown-key token gets its 401
passed through; a valid token with no matching User row gets the
provisioning 401. -/
theorem adminGate_superadmin_only_witness :
    adminGate tokRoot env1 (some jwks1) [alice, root0] = .ok root0 ∧
      adminGate tok1 env1 (some jwks1) [alice, root0] =
        .error (.http 403 "Forbidden") ∧
      adminGate tokMiss env1 (some jwks1) [alice, root0] =
        .error (.http 401 "Public key not found") ∧
      adminGate tok1 env1 (some jwks1) [] =
        .error (.http 401 "User not provisioned. Contact your administrator.") := by
  have hroot : (verifyToken tokRoot env1 (some jwks1)).1 = .ok claimsRoot :=
    verifyToken_ok_of_valid tokRoot env1 (some jwks1) jwks1 keyA (Or.inl rfl)
      rfl rfl (by decide)
  have h1 : (verifyToken tok1 env1 (some jwks1)).1 = .ok claims1 :=
    verifyToken_ok_of_valid tok1 env1 (some jwks1) jwks1 keyA (Or.inl rfl)
      rfl rfl (by decide)
  exact ⟨(((adminGate_superadmin_only tokRoot env1 (some jwks1)
      [alice, root0]).1 claimsRoot root0 hroot rfl).1 rfl),
    (((adminGate_superadmin_only tok1 env1 (some jwks1)
      [alice, root0]).1 claims1 alice h1 rfl).2 rfl),
    ((adminGate_superadmin_only tokMiss env1 (some jwks1)
      [alice, root0]).2.1 (.http 401 "Public key not found") rfl).1,
    ((adminGate_superadmin_only tok1 env1 (some jwks1) []).2.2 claims1
      h1 rfl)⟩

/-! ## C7 — hasPermission is the three-way join, and is monotonic -/

/-- Shared helper: `hasPermission` answers true exactly when the three-way
join UserRole–RolePermission–Permission is inhabited. -/
lemma hasPermission_iff (s : RbacState) (uid cid : Nat) (n : String) :
    hasPermission s uid cid n = true ↔
      ∃ ur ∈ s.userRoles, ur.user_id = uid ∧ ur.company_id = cid ∧
        ∃ rp ∈ s.rolePermissions, rp.role_id = ur.role_id ∧
          ∃ p ∈ s.permissions, p.id = rp.permission_id ∧ p.name = n := by
  simp only [hasPermission, List.any_eq_true, Bool.and_eq_true, beq_iff_eq]
  constructor
  · rintro ⟨ur, hur, ⟨h1, h2⟩, rp, hrp, h3, p, hp, h4, h5⟩
    exact ⟨ur, hur, h1, h2, rp, hrp, h3, p, hp, h4, h5⟩
  · rintro ⟨ur, hur, h1, h2, rp, hrp, h3, p, hp, h4, h5⟩
    exact ⟨ur, hur, ⟨h1, h2⟩, rp, hrp, h3, p, hp, h4, h5⟩

/-- C7: `hasPermission(userId, companyId, permissionName)` is true exactly
when a UserRole of that user in that company joins through a RolePermission
to a Permission of that name; and it is monotonic — from a state where the
check is false, inserting the matching RolePermission and UserRole rows
makes it true, and deleting either of the two inserted rows makes it false
again (the deletion directions use the store-enforced uniqueness of
Permission names, tenant.py line 62). -/
theorem hasPermission_join_and_monotonic
    (s : RbacState) (userId companyId roleId : Nat) (pm : PermissionRow)
    (pname : String)
    (hfalse : hasPermission s userId companyId pname = false)
    (hpm : pm ∈ s.permissions) (hname : pm.name = pname)
    (huniq : ∀ p ∈ s.permissions, p.name = pname → p = pm) :
    (∀ uid cid n, hasPermission s uid cid n = true ↔
        ∃ ur ∈ s.userRoles, ur.user_id = uid ∧ ur.company_id = cid ∧
          ∃ rp ∈ s.rolePermissions, rp.role_id = ur.role_id ∧
            ∃ p ∈ s.permissions, p.id = rp.permission_id ∧ p.name = n) ∧
    hasPermission (grant s userId roleId companyId pm.id)
        userId companyId pname = true ∧
    hasPermission (revokeUserRole (grant s userId roleId companyId pm.id)
        userId roleId companyId) userId companyId pname = false ∧
    hasPermission (revokeRolePermission (grant s userId roleId companyId pm.id)
        roleId pm.id) userId companyId pname = false := by
  refine ⟨fun uid cid n => hasPermission_iff s uid cid n, ?_, ?_, ?_⟩
  · rw [hasPermission_iff]
    exact ⟨⟨userId, roleId, companyId⟩, List.mem_cons_self _ _, rfl, rfl,
      ⟨roleId, pm.id⟩, List.mem_cons_self _ _, rfl, pm, hpm, rfl, hname⟩
  · rw [Bool.eq_false_iff]
    intro hcontra
    rw [hasPermission_iff] at hcontra
    obtain ⟨ur, hur, h1, h2, rp, hrp, h3, p, hp, h4, h5⟩ := hcontra
    simp only [revokeUserRole, grant, List.mem_filter, List.mem_cons,
      decide_eq_true_eq] at hur hrp hp
    obtain ⟨hur1, hur2⟩ := hur
    rcases hrp with hrp | hrp
    · subst hrp
      apply hur2
      cases ur
      simp only at h1 h2 h3
      simp [h1, h2, h3]
    · rcases hur1 with hx | hx
      · exact hur2 hx
      · rw [Bool.eq_false_iff] at hfalse
        exact hfalse ((hasPermission_iff s userId companyId pname).mpr
          ⟨ur, hx, h1, h2, rp, hrp, h3, p, hp, h4, h5⟩)
  · rw [Bool.eq_false_iff]
    intro hcontra
    rw [hasPermission_iff] at hcontra
    obtain ⟨ur, hur, h1, h2, rp, hrp, h3, p, hp, h4, h5⟩ := hcontra
    simp only [revokeRolePermission, grant, List.mem_filter, List.mem_cons,
      decide_eq_true_eq] at hur hrp hp
    obtain ⟨hrp1, hrp2⟩ := hrp
    have hrps : rp ∈ s.rolePermissions := by
      rcases hrp1 with hx | hx
      · exact absurd hx hrp2
      · exact hx
    rcases hur with hur | hur
    · subst hur
      simp only at h3
      apply hrp2
      have hppm : p = pm := huniq p hp h5
      cases rp
      simp only at h3 h4
      subst hppm
      simp [h3, ← h4]
    · rw [Bool.eq_false_iff] at hfalse
      exact hfalse ((hasPermission_iff s userId companyId pname).mpr
        ⟨ur, hur, h1, h2, rp, hrps, h3, p, hp, h4, h5⟩)

/-- C7 witness: in the one-permission catalogue state `rbac0` (no roles
assigned) the check for user 1 in company 7 is false; granting RolePermission
(5, 10) and UserRole (1, 5, 7) makes it true, and revoking either row makes
it false again. -/
theorem hasPermission_join_and_monotonic_witness :
    hasPermission (grant rbac0 1 5 7 10) 1 7 "emissions:write" = true ∧
      hasPermission (revokeUserRole (grant rbac0 1 5 7 10) 1 5 7)
        1 7 "emissions:write" = false ∧
      hasPermission (revokeRolePermission (grant rbac0 1 5 7 10) 5 10)
        1 7 "emissions:write" = false :=
  ⟨(hasPermission_join_and_monotonic rbac0 1 7 5 ⟨10, "emissions:write"⟩
      "emissions:write" rfl (by decide) rfl (by decide)).2.1,
   (hasPermission_join_and_monotonic rbac0 1 7 5 ⟨10, "emissions:write"⟩
      "emissions:write" rfl (by decide) rfl (by decide)).2.2.1,
   (hasPermission_join_and_monotonic rbac0 1 7 5 ⟨10, "emissions:write"⟩
      "emissions:write" rfl (by decide) rfl (by decide)).2.2.2⟩

/-! ## C10 — provisioning never mints a superadmin -/

/-- C10: every User row created through the `provision_user` admin endpoint
carries the model's column defaults `is_superadmin = false` and
`is_active = true` (the handler passes neither field), together with the
requested subject, email and company; by contrast the seed script — the one
path outside the request pipeline — is what constructs superadmin rows. -/
theorem provisionUser_never_superadmin
    (companies : List CompanyRow) (users : List UserRow)
    (company_id : Nat) (cognito_sub email : String)
    (cg : CognitoLookup) (newId : Nat) (u : UserRow) (tr : List DbOp)
    (h : provisionUser companies users company_id cognito_sub email cg newId =
      (.ok u, tr)) :
    (u.is_superadmin = false ∧ u.is_active = true ∧
        u.cognito_sub = cognito_sub ∧ u.email = email ∧
        u.company_id = company_id) ∧
      ∀ pid nid s e, (seedSuperadmin pid nid s e).is_superadmin = true := by
  refine ⟨?_, fun pid nid s e => rfl⟩
  unfold provisionUser at h
  rcases hc : companies.find? (fun c => c.id == company_id) with _ | c <;>
    rw [hc] at h
  · simp at h
  · cases cg with
    | userNotFound => simp at h
    | otherError => simp at h
    | found =>
      rcases hu : users.find? (fun x => x.cognito_sub == cognito_sub)
          with _ | _ <;> rw [hu] at h
      · simp only [Prod.mk.injEq, Except.ok.injEq] at h
        obtain ⟨h1, h2⟩ := h
        subst h1
        exact ⟨rfl, rfl, rfl, rfl, rfl⟩
      · simp at h

/-- C10 witness: provisioning subject `sub-9` into existing company 7 (with
the Cognito lookup succeeding and no conflicting row) creates exactly the
non-superadmin, active row. -/
theorem provisionUser_never_superadmin_witness :
    ((⟨42, "sub-9", "user9@acme.test", true, false, 7⟩ : UserRow).is_superadmin
          = false ∧
        (⟨42, "sub-9", "user9@acme.test", true, false, 7⟩ : UserRow).is_active
          = true ∧
        (⟨42, "sub-9", "user9@acme.test", true, false, 7⟩ : UserRow).cognito_sub
          = "sub-9" ∧
        (⟨42, "sub-9", "user9@acme.test", true, false, 7⟩ : UserRow).email
          = "user9@acme.test" ∧
        (⟨42, "sub-9", "user9@acme.test", true, false, 7⟩ : UserRow).company_id
          = 7) ∧
      ∀ pid nid s e, (seedSuperadmin pid nid s e).is_superadmin = true :=
  provisionUser_never_superadmin [⟨7, "Acme", "acme-corp"⟩] [] 7 "sub-9"
    "user9@acme.test" .found 42 ⟨42, "sub-9", "user9@acme.test", true, false, 7⟩
    [.query false, .query false,
      .insertUser ⟨42, "sub-9", "user9@acme.test", true, false, 7⟩, .commit]
    rfl

end EmissionTracker
